import Mathlib

/-!
Shallow embedding of `src/software/doc/conf.py`, the Sphinx configuration
script of the smart_home_zephyr repository, together with proofs of the
claims about it.

The script is a straight-line sequence of assignments with one conditional
probe: it tries `import sphinxcontrib.plantuml`; on success it appends the
extension, sets `plantuml_available = True`, chooses the `plantuml` command
via `shutil.which('plantuml')`, and sets `plantuml_output_format = 'svg'`;
on `ImportError` it does nothing. We model the environment by two inputs:
whether the import succeeds, and what `shutil.which('plantuml')` returns
(`None` or a path string). Python variables that may or may not be assigned
(`plantuml`, `plantuml_output_format`) are modelled as `Option String`,
`none` meaning the variable is never defined.
-/

/-- The environment the script runs in: the outcome of
`import sphinxcontrib.plantuml` and the return value of
`shutil.which('plantuml')` (`none` models Python `None`). -/
structure Env where
  plantumlImportOk : Bool
  whichPlantuml : Option String
deriving DecidableEq, Repr

/-- Python truthiness of an `Optional[str]` value: `None` and the empty
string are falsy, any other string is truthy. -/
def pyTruthy (o : Option String) : Bool :=
  match o with
  | none => false
  | some s => !s.isEmpty

/-- A Python value appearing in the `html_theme_options` dict:
an int or a bool. -/
inductive PyVal where
  | int (n : Int)
  | bool (b : Bool)
deriving DecidableEq, Repr

/-- All configuration variables the script can define. `plantuml` and
`plantuml_output_format` are `Option String` because the script defines
them only on the import-success branch; `none` means "never assigned". -/
structure Config where
  project : String := ""
  copyright : String := ""
  author : String := ""
  release : String := ""
  version : String := ""
  extensions : List String := []
  plantuml_available : Bool := false
  plantuml : Option String := none
  plantuml_output_format : Option String := none
  html_context : List (String × Bool) := []
  templates_path : List String := []
  exclude_patterns : List String := []
  html_theme : String := ""
  html_static_path : List String := []
  html_theme_options : List (String × PyVal) := []
  html_css_files : List String := []
  intersphinx_mapping : List (String × (String × Option String)) := []
deriving DecidableEq, Repr

/-- Lines 9-26 of conf.py: project metadata, the base `extensions` list,
and the initial `plantuml_available = False`. -/
def afterMetadata : Config :=
  { project := "nRF5340 DK Matter Smart Light"
    copyright := "2024-2026, Smart Home Project"
    author := "Smart Home Development Team"
    release := "1.0.0"
    version := "1.0"
    extensions :=
      [ "sphinx.ext.intersphinx"
      , "sphinx.ext.autodoc"
      , "sphinx.ext.todo"
      , "sphinx.ext.viewcode" ]
    plantuml_available := false }

/-- Lines 27-41 of conf.py: the `try: import sphinxcontrib.plantuml`
block. On success it appends the extension, sets the flag, chooses the
`plantuml` command from `shutil.which('plantuml')`, and sets the output
format; on `ImportError` the `except` clause is `pass`. -/
def probePlantuml (e : Env) (c : Config) : Config :=
  if e.plantumlImportOk then
    { c with
      extensions := c.extensions ++ ["sphinxcontrib.plantuml"]
      plantuml_available := true
      plantuml :=
        some (if pyTruthy e.whichPlantuml then "plantuml"
              else "java -jar /usr/share/plantuml/plantuml.jar")
      plantuml_output_format := some "svg" }
  else
    c

/-- Lines 44-91 of conf.py: the unconditional assignments after the
probe (`html_context` reads the `plantuml_available` flag). -/
def finalAssignments (c : Config) : Config :=
  { c with
    html_context := [("plantuml_available", c.plantuml_available)]
    templates_path := ["_templates"]
    exclude_patterns :=
      [ "_build"
      , "_build_sphinx"
      , "Thumbs.db"
      , ".DS_Store"
      , "README.md"
      , "README.rst"
      , "../.github/**"
      , "../.gitlab-ci.yml"
      , "**/.git/**"
      , "**/node_modules/**"
      , "**/build/**"
      , "**/build_app/**"
      , "**/build_net/**" ]
    html_theme := "sphinx_rtd_theme"
    html_static_path := ["_static"]
    html_theme_options :=
      [ ("navigation_depth", PyVal.int 4)
      , ("collapse_navigation", PyVal.bool false)
      , ("sticky_navigation", PyVal.bool true)
      , ("titles_only", PyVal.bool false) ]
    html_css_files := ["custom.css"]
    intersphinx_mapping :=
      [ ("zephyr", ("https://docs.zephyrproject.org/latest/", none))
      , ("matter", ("https://project-chip.github.io/connectedhomeip-doc/", none)) ] }

/-- The whole script: metadata, then the plantuml probe, then the
remaining assignments. -/
def conf (e : Env) : Config :=
  finalAssignments (probePlantuml e afterMetadata)

/-- The names of the configuration variables the script has defined,
in source order. `plantuml` and `plantuml_output_format` count as
defined exactly when their `Option` field is `some`. -/
def definedKeys (c : Config) : List String :=
  [ "project", "copyright", "author", "release", "version"
  , "extensions", "plantuml_available" ] ++
  (if c.plantuml.isSome then ["plantuml"] else []) ++
  (if c.plantuml_output_format.isSome then ["plantuml_output_format"] else []) ++
  [ "html_context", "templates_path", "exclude_patterns", "html_theme"
  , "html_static_path", "html_theme_options", "html_css_files"
  , "intersphinx_mapping" ]

/-- C1: when the import of sphinxcontrib.plantuml fails with ImportError,
the script completes with the extensions list still exactly the four base
entries, plantuml_available still False, and html_context recording that
flag under the key 'plantuml_available'. -/
theorem import_fail_leaves_config_intact (e : Env)
    (h : e.plantumlImportOk = false) :
    (conf e).extensions =
      [ "sphinx.ext.intersphinx", "sphinx.ext.autodoc"
      , "sphinx.ext.todo", "sphinx.ext.viewcode" ] ∧
    (conf e).plantuml_available = false ∧
    (conf e).html_context = [("plantuml_available", false)] := by
  simp [conf, finalAssignments, probePlantuml, afterMetadata, h]

/-- Witness for C1 at the concrete environment where the import fails. -/
theorem import_fail_leaves_config_intact_witness :
    (conf ⟨false, none⟩).extensions =
      [ "sphinx.ext.intersphinx", "sphinx.ext.autodoc"
      , "sphinx.ext.todo", "sphinx.ext.viewcode" ] ∧
    (conf ⟨false, none⟩).plantuml_available = false ∧
    (conf ⟨false, none⟩).html_context = [("plantuml_available", false)] :=
  import_fail_leaves_config_intact ⟨false, none⟩ rfl

/-- C2: the final plantuml_available is True exactly when the import of
sphinxcontrib.plantuml succeeds; on ImportError it stays False. -/
theorem plantuml_available_iff_import (e : Env) :
    (conf e).plantuml_available = e.plantumlImportOk := by
  cases e with
  | mk ok w =>
    cases ok <;>
      simp [conf, finalAssignments, probePlantuml, afterMetadata]

/-- Counterexample for C3: the set of variables the script defines is not
the same in every environment; when the import succeeds, plantuml and
plantuml_output_format are defined, and when it fails they are not. -/
theorem definedKeys_differ_between_envs :
    definedKeys (conf ⟨true, none⟩) ≠ definedKeys (conf ⟨false, none⟩) := by
  decide

/-- C3 (amended): the list of variables the script defines depends only on
whether the sphinxcontrib.plantuml import succeeds: it is one fixed list
of 17 keys on success and that list minus plantuml and
plantuml_output_format (15 keys) on failure. -/
theorem definedKeys_fixed_given_import_outcome (e : Env) :
    definedKeys (conf e) =
      if e.plantumlImportOk then
        [ "project", "copyright", "author", "release", "version"
        , "extensions", "plantuml_available", "plantuml"
        , "plantuml_output_format"
        , "html_context", "templates_path", "exclude_patterns", "html_theme"
        , "html_static_path", "html_theme_options", "html_css_files"
        , "intersphinx_mapping" ]
      else
        [ "project", "copyright", "author", "release", "version"
        , "extensions", "plantuml_available"
        , "html_context", "templates_path", "exclude_patterns", "html_theme"
        , "html_static_path", "html_theme_options", "html_css_files"
        , "intersphinx_mapping" ] := by
  cases e with
  | mk ok w =>
    cases ok <;>
      simp [definedKeys, conf, finalAssignments, probePlantuml, afterMetadata]

/-- C4: when the import succeeds, plantuml is set to 'plantuml' if
shutil.which('plantuml') is truthy and to the java -jar fallback
otherwise; in both cases the script completes with plantuml defined. -/
theorem plantuml_command_choice (e : Env) (h : e.plantumlImportOk = true) :
    (pyTruthy e.whichPlantuml = true →
      (conf e).plantuml = some "plantuml") ∧
    (pyTruthy e.whichPlantuml = false →
      (conf e).plantuml = some "java -jar /usr/share/plantuml/plantuml.jar") := by
  constructor <;> intro hw <;>
    simp [conf, finalAssignments, probePlantuml, afterMetadata, h, hw]

/-- Witness for C4 at a concrete environment where the import succeeds
and the binary is found. -/
theorem plantuml_command_choice_witness :
    (pyTruthy (some "/usr/bin/plantuml") = true →
      (conf ⟨true, some "/usr/bin/plantuml"⟩).plantuml = some "plantuml") ∧
    (pyTruthy (some "/usr/bin/plantuml") = false →
      (conf ⟨true, some "/usr/bin/plantuml"⟩).plantuml =
        some "java -jar /usr/share/plantuml/plantuml.jar") :=
  plantuml_command_choice ⟨true, some "/usr/bin/plantuml"⟩ rfl

/-- Counterexample for C5: the literal exclude_patterns list in the source
has 13 entries, not 14. -/
theorem exclude_patterns_has_13_not_14_entries :
    (conf ⟨false, none⟩).exclude_patterns.length = 13 ∧
    (conf ⟨false, none⟩).exclude_patterns.length ≠ 14 := by
  constructor <;> decide

/-- C5 (amended): in every environment, exclude_patterns is exactly the
fixed literal list of 13 entries shown in the source, in that order. -/
theorem exclude_patterns_is_the_literal_list (e : Env) :
    (conf e).exclude_patterns =
      [ "_build"
      , "_build_sphinx"
      , "Thumbs.db"
      , ".DS_Store"
      , "README.md"
      , "README.rst"
      , "../.github/**"
      , "../.gitlab-ci.yml"
      , "**/.git/**"
      , "**/node_modules/**"
      , "**/build/**"
      , "**/build_app/**"
      , "**/build_net/**" ] := by
  cases e with
  | mk ok w => cases ok <;> rfl

/-- C6: in every environment, intersphinx_mapping is exactly the mapping
binding 'zephyr' and 'matter' to their documentation base URLs. -/
theorem intersphinx_mapping_fixed (e : Env) :
    (conf e).intersphinx_mapping =
      [ ("zephyr", ("https://docs.zephyrproject.org/latest/", none))
      , ("matter", ("https://project-chip.github.io/connectedhomeip-doc/", none)) ] := by
  cases e with
  | mk ok w => cases ok <;> rfl

/-- C7: in every environment, the extensions list starts with the four base
entries in order, has 'sphinxcontrib.plantuml' as a fifth entry exactly
when the import succeeds, and html_theme is 'sphinx_rtd_theme'. -/
theorem extensions_and_theme_invariant (e : Env) :
    (conf e).extensions.take 4 =
      [ "sphinx.ext.intersphinx", "sphinx.ext.autodoc"
      , "sphinx.ext.todo", "sphinx.ext.viewcode" ] ∧
    ((conf e).extensions.get? 4 = some "sphinxcontrib.plantuml" ↔
      e.plantumlImportOk = true) ∧
    (conf e).html_theme = "sphinx_rtd_theme" := by
  cases e with
  | mk ok w =>
    cases ok <;>
      simp [conf, finalAssignments, probePlantuml, afterMetadata]

/-- C8: the script is deterministic in the two environment inputs: two
runs with the same import outcome and a shutil.which result of the same
truthiness produce identical configurations. -/
theorem conf_deterministic (e1 e2 : Env)
    (h1 : e1.plantumlImportOk = e2.plantumlImportOk)
    (h2 : pyTruthy e1.whichPlantuml = pyTruthy e2.whichPlantuml) :
    conf e1 = conf e2 := by
  cases e1 with
  | mk ok1 w1 =>
    cases e2 with
    | mk ok2 w2 =>
      simp only [] at h1 h2
      subst h1
      cases ok1 <;>
        simp [conf, finalAssignments, probePlantuml, afterMetadata, h2]

/-- Witness for C8: two environments differing only in the path returned
by shutil.which, both truthy, yield the same configuration. -/
theorem conf_deterministic_witness :
    conf ⟨true, some "/usr/bin/plantuml"⟩ = conf ⟨true, some "/opt/plantuml"⟩ :=
  conf_deterministic ⟨true, some "/usr/bin/plantuml"⟩ ⟨true, some "/opt/plantuml"⟩
    rfl rfl

/-- C9: plantuml and plantuml_output_format are defined exactly when
the import succeeds, whatever shutil.which returns, and when defined the
output format is 'svg'; on import failure both are absent. -/
theorem plantuml_vars_defined_iff_import (e : Env) :
    ((conf e).plantuml.isSome = e.plantumlImportOk) ∧
    ((conf e).plantuml_output_format.isSome = e.plantumlImportOk) ∧
    (e.plantumlImportOk = true →
      (conf e).plantuml_output_format = some "svg") := by
  cases e with
  | mk ok w =>
    cases ok <;>
      simp [conf, finalAssignments, probePlantuml, afterMetadata]

/-- Witness for C9 had it hypotheses; it has none, but the inner
implication is exercised here anyway at a concrete environment. -/
theorem plantuml_vars_defined_iff_import_witness :
    (conf ⟨true, none⟩).plantuml_output_format = some "svg" :=
  (plantuml_vars_defined_iff_import ⟨true, none⟩).2.2 rfl

/-- C10: the five metadata variables are assigned their literals before
the probe, and the probe (either branch) leaves all five unchanged. -/
theorem metadata_set_before_probe_and_framed :
    (afterMetadata.project = "nRF5340 DK Matter Smart Light" ∧
     afterMetadata.copyright = "2024-2026, Smart Home Project" ∧
     afterMetadata.author = "Smart Home Development Team" ∧
     afterMetadata.release = "1.0.0" ∧
     afterMetadata.version = "1.0") ∧
    ∀ (e : Env) (c : Config),
      (probePlantuml e c).project = c.project ∧
      (probePlantuml e c).copyright = c.copyright ∧
      (probePlantuml e c).author = c.author ∧
      (probePlantuml e c).release = c.release ∧
      (probePlantuml e c).version = c.version := by
  refine ⟨⟨rfl, rfl, rfl, rfl, rfl⟩, ?_⟩
  intro e c
  cases e with
  | mk ok w => cases ok <;> simp [probePlantuml]
